import Mathlib

/-!
Shallow embedding of the transfer-fee computation engine of
`src/base/util.ts` (KORR-AI/raydium-sdk).

Modelling conventions:
* `BN` (bn.js arbitrary-precision integers) is modelled as `Int`; bn.js
  `divmod` is truncated division, which is `Int.tdiv` / `Int.tmod`.
* `bigint` fields and JS `number` fields holding integers are modelled as
  `Int`.
* The expiration-time expression `(... * 400) / 1000` is evaluated with JS
  `number` division; it is modelled as exact division in `ℚ`.
* `undefined`-able values become `Option`.
-/

/-- Byte buffers (`Buffer`); their contents are opaque to the functions
modelled here. -/
abbrev Buffer := List Nat

/-- `Mint` from `util.ts`. -/
structure Mint where
  mintAuthority : Option Buffer
  supply : Int
  decimals : Int
  isInitialized : Bool
  freezeAuthority : Option Buffer
deriving Repr, DecidableEq

/-- `TransferFee` from `util.ts`: one fee tier. -/
structure TransferFee where
  epoch : Int
  maximumFee : Int
  transferFeeBasisPoints : Int
deriving Repr, DecidableEq

/-- `TransferFeeConfig` from `util.ts`. -/
structure TransferFeeConfig where
  transferFeeConfigAuthority : Option Buffer
  withdrawWithheldAuthority : Option Buffer
  withheldAmount : Int
  olderTransferFee : TransferFee
  newerTransferFee : TransferFee
deriving Repr, DecidableEq

/-- The fields of `@solana/web3.js`'s `EpochInfo` consumed by the fee
engine. -/
structure EpochInfo where
  epoch : Int
  slotsInEpoch : Int
  absoluteSlot : Int
deriving Repr, DecidableEq

/-- `GetTransferAmountFee` from `util.ts`: the engine's result record. -/
structure GetTransferAmountFee where
  amount : Int
  fee : Option Int
  expirationTime : Option ℚ
deriving Repr, DecidableEq

/-- `unpackMint` from `util.ts`: an explicit stub that ignores the account
data and returns a fixed record. -/
def unpackMint (_pubkey : String) (_data : Buffer) : Mint :=
  { mintAuthority := none
    supply := 0
    decimals := 0
    isInitialized := true
    freezeAuthority := none }

/-- `getTransferFeeConfig` from `util.ts`: simplified implementation that
always returns `null`. -/
def getTransferFeeConfig (_mint : Mint) : Option TransferFeeConfig :=
  none

/-- `BNDivCeil` from `util.ts`.  bn.js `divmod` is truncated division with
the remainder taking the dividend's sign, i.e. `Int.tdiv` / `Int.tmod`. -/
def BNDivCeil (bn1 bn2 : Int) : Int :=
  if bn1.tmod bn2 > 0 then bn1.tdiv bn2 + 1 else bn1.tdiv bn2

/-- The constant `POINT = 10_000` from `util.ts`. -/
def POINT : Int := 10000

/-- `getTransferAmountFee` from `util.ts`, translated clause by clause. -/
def getTransferAmountFee (amount : Int) (feeConfig : Option TransferFeeConfig)
    (epochInfo : EpochInfo) (addFee : Bool) : GetTransferAmountFee :=
  match feeConfig with
  | none =>
      { amount := amount, fee := none, expirationTime := none }
  | some feeConfig =>
      let nowFeeConfig : TransferFee :=
        if epochInfo.epoch < feeConfig.newerTransferFee.epoch then
          feeConfig.olderTransferFee
        else feeConfig.newerTransferFee
      let maxFee : Int := nowFeeConfig.maximumFee
      let expirationTime : Option ℚ :=
        if epochInfo.epoch < feeConfig.newerTransferFee.epoch then
          some ((((feeConfig.newerTransferFee.epoch * epochInfo.slotsInEpoch
              - epochInfo.absoluteSlot) * 400 : Int) : ℚ) / 1000)
        else none
      if addFee then
        if nowFeeConfig.transferFeeBasisPoints = POINT then
          let nowMaxFee := nowFeeConfig.maximumFee
          { amount := amount + nowMaxFee
            fee := some nowMaxFee
            expirationTime := expirationTime }
        else
          let tAmount :=
            BNDivCeil (amount * POINT) (POINT - nowFeeConfig.transferFeeBasisPoints)
          let nowMaxFee := nowFeeConfig.maximumFee
          let TAmount := if tAmount - amount > nowMaxFee then amount + nowMaxFee else tAmount
          let rawFee := BNDivCeil (TAmount * nowFeeConfig.transferFeeBasisPoints) POINT
          let fee := if rawFee > maxFee then maxFee else rawFee
          { amount := TAmount
            fee := some fee
            expirationTime := expirationTime }
      else
        let rawFee := BNDivCeil (amount * nowFeeConfig.transferFeeBasisPoints) POINT
        let fee := if rawFee > maxFee then maxFee else rawFee
        { amount := amount
          fee := some fee
          expirationTime := expirationTime }

/-- `minExpirationTime` from `util.ts`. -/
def minExpirationTime (expirationTime1 expirationTime2 : Option ℚ) : Option ℚ :=
  match expirationTime1, expirationTime2 with
  | none, e2 => e2
  | some e1, none => some e1
  | some e1, some e2 => some (min e1 e2)

/-- `ReturnTypeFetchMultipleMintInfo` from `util.ts`: a `Mint` together with
an optional fee config. -/
structure ReturnTypeFetchMultipleMintInfo extends Mint where
  feeConfig : Option TransferFeeConfig
deriving Repr, DecidableEq

/-- The per-account computation of `fetchMultipleMintInfos` from `util.ts`.
The network fetch (`getMultipleAccountsInfoWithCustomFlags`) is abstracted
as the `mintInfos` argument: the list of fetched `(pubkey, account data)`
pairs; the loop body unpacks each mint and attaches
`getTransferFeeConfig(t) ?? undefined`, where `?? undefined` is the
identity on optional values. -/
def fetchMultipleMintInfos (mintInfos : List (String × Buffer)) :
    List (String × ReturnTypeFetchMultipleMintInfo) :=
  mintInfos.map fun i =>
    let t := unpackMint i.1 i.2
    (i.1, { toMint := t, feeConfig := getTransferFeeConfig t })

/-- The active fee tier, as selected on lines 304–305 of `util.ts`: the
older tier while the current epoch precedes the newer tier's activation
epoch, the newer tier from then on. -/
def activeTier (feeConfig : TransferFeeConfig) (epochInfo : EpochInfo) : TransferFee :=
  if epochInfo.epoch < feeConfig.newerTransferFee.epoch then
    feeConfig.olderTransferFee
  else feeConfig.newerTransferFee

/-- The spec's description of ceiling division (§4.2, §8): the floor
quotient plus one when there is a nonzero remainder, the floor quotient
otherwise.  Floor division on `Int` is `Int.fdiv` / `Int.fmod`. -/
def ceilDivSpec (a b : Int) : Int :=
  if a.fmod b = 0 then a.fdiv b else a.fdiv b + 1

theorem BNDivCeil_eq_ediv (a b : Int) (hb : 0 < b) :
    BNDivCeil a b = a / b + (if a % b = 0 then 0 else 1) := by
  unfold BNDivCeil
  rcases le_or_lt 0 a with ha | ha
  · rw [Int.tdiv_eq_ediv ha hb.le, Int.tmod_eq_emod ha hb.le]
    have h1 : 0 ≤ a % b := Int.emod_nonneg a hb.ne'
    split_ifs <;> omega
  · have hc : (0 : Int) ≤ -a := by omega
    set q := -a / b with hqdef
    set r := -a % b with hrdef
    have hq : b * q + r = -a := Int.ediv_add_emod (-a) b
    have hr0 : 0 ≤ r := Int.emod_nonneg (-a) hb.ne'
    have hrb : r < b := Int.emod_lt_of_pos (-a) hb
    have htd : a.tdiv b = -q := by
      conv_lhs => rw [show a = -(-a) by ring]
      rw [Int.neg_tdiv, Int.tdiv_eq_ediv hc hb.le, hqdef]
    have htm : a.tmod b = -r := by
      have h2 := Int.tdiv_add_tmod a b
      rw [htd, mul_neg] at h2
      linarith
    rw [htd, htm, if_neg (by omega)]
    rcases eq_or_ne r 0 with hr | hr
    · have ha2 : a / b = -q ∧ a % b = 0 := by
        refine (Int.ediv_emod_unique hb).mpr ⟨?_, le_refl 0, hb⟩
        rw [show (0 : Int) + b * -q = -(b * q) by ring]
        linarith
      rw [ha2.1, ha2.2]
      norm_num
    · have ha2 : a / b = -q - 1 ∧ a % b = b - r := by
        refine (Int.ediv_emod_unique hb).mpr ⟨?_, by omega, by omega⟩
        rw [show (b - r) + b * (-q - 1) = -r - b * q by ring]
        linarith
      rw [ha2.1, ha2.2, if_neg (by omega)]
      ring

theorem BNDivCeil_eq_ceilDivSpec (a b : Int) (hb : 0 < b) :
    BNDivCeil a b = ceilDivSpec a b := by
  rw [BNDivCeil_eq_ediv a b hb]
  unfold ceilDivSpec
  rw [Int.fdiv_eq_ediv a hb.le, Int.fmod_eq_emod a hb.le]
  split_ifs <;> omega

theorem le_mul_BNDivCeil (a b : Int) (hb : 0 < b) : a ≤ b * BNDivCeil a b := by
  rw [BNDivCeil_eq_ediv a b hb]
  have hq : b * (a / b) + a % b = a := Int.ediv_add_emod a b
  have hr0 : 0 ≤ a % b := Int.emod_nonneg a hb.ne'
  have hrb : a % b < b := Int.emod_lt_of_pos a hb
  split_ifs with h
  · linarith
  · rw [show b * (a / b + 1) = b * (a / b) + b by ring]
    linarith

theorem BNDivCeil_le_iff (a b y : Int) (hb : 0 < b) :
    BNDivCeil a b ≤ y ↔ a ≤ b * y := by
  rw [BNDivCeil_eq_ediv a b hb]
  have hq : b * (a / b) + a % b = a := Int.ediv_add_emod a b
  have hr0 : 0 ≤ a % b := Int.emod_nonneg a hb.ne'
  have hrb : a % b < b := Int.emod_lt_of_pos a hb
  split_ifs with h
  · constructor
    · intro hl
      have := mul_le_mul_of_nonneg_left hl hb.le
      linarith
    · intro hr
      have : b * (a / b) ≤ b * y := by linarith
      have := Int.le_of_mul_le_mul_left this hb
      linarith
  · constructor
    · intro hl
      have := mul_le_mul_of_nonneg_left hl hb.le
      rw [show b * (a / b + 1) = b * (a / b) + b by ring] at this
      linarith
    · intro hr
      have hpos : 0 < a % b := lt_of_le_of_ne hr0 (Ne.symm h)
      have hlt : b * (a / b) < b * y := by linarith
      have := Int.lt_of_mul_lt_mul_left hlt hb.le
      linarith

theorem BNDivCeil_mul_cancel (x b : Int) (hb : 0 < b) : BNDivCeil (x * b) b = x := by
  rw [BNDivCeil_eq_ediv _ b hb, Int.mul_ediv_cancel x hb.ne', Int.mul_emod_left]
  norm_num

theorem ite_gt_eq_min (x m : Int) : (if x > m then m else x) = min x m := by
  rw [min_def]
  split_ifs <;> omega

theorem POINT_eq : POINT = 10000 := rfl

/-- The amount/fee computation of `getTransferAmountFee` (lines 312–343 of
`util.ts`) as a function of the selected tier: returns the pair
`(gross amount, fee)`. -/
def transferFeeCore (amount : Int) (tf : TransferFee) (addFee : Bool) : Int × Int :=
  if addFee then
    if tf.transferFeeBasisPoints = POINT then
      (amount + tf.maximumFee, tf.maximumFee)
    else
      let tAmount := BNDivCeil (amount * POINT) (POINT - tf.transferFeeBasisPoints)
      let TAmount := if tAmount - amount > tf.maximumFee then amount + tf.maximumFee else tAmount
      let rawFee := BNDivCeil (TAmount * tf.transferFeeBasisPoints) POINT
      (TAmount, if rawFee > tf.maximumFee then tf.maximumFee else rawFee)
  else
    let rawFee := BNDivCeil (amount * tf.transferFeeBasisPoints) POINT
    (amount, if rawFee > tf.maximumFee then tf.maximumFee else rawFee)

theorem getTransferAmountFee_eq_core (amount : Int) (fc : TransferFeeConfig)
    (ep : EpochInfo) (addFee : Bool) :
    getTransferAmountFee amount (some fc) ep addFee =
      { amount := (transferFeeCore amount (activeTier fc ep) addFee).1
        fee := some (transferFeeCore amount (activeTier fc ep) addFee).2
        expirationTime :=
          if ep.epoch < fc.newerTransferFee.epoch then
            some ((((fc.newerTransferFee.epoch * ep.slotsInEpoch
                - ep.absoluteSlot) * 400 : Int) : ℚ) / 1000)
          else none } := by
  simp only [getTransferAmountFee, transferFeeCore, activeTier]
  split_ifs <;> rfl

theorem transferFeeCore_false (amount : Int) (tf : TransferFee) :
    transferFeeCore amount tf false =
      (amount, min (BNDivCeil (amount * tf.transferFeeBasisPoints) POINT) tf.maximumFee) := by
  simp only [transferFeeCore, ite_gt_eq_min, Bool.false_eq_true, if_false]

theorem transferFeeCore_true_full (amount : Int) (tf : TransferFee)
    (hbp : tf.transferFeeBasisPoints = POINT) :
    transferFeeCore amount tf true = (amount + tf.maximumFee, tf.maximumFee) := by
  simp only [transferFeeCore, if_pos hbp, if_true]

theorem transferFeeCore_true_partial (amount : Int) (tf : TransferFee)
    (hbp : tf.transferFeeBasisPoints ≠ POINT) :
    transferFeeCore amount tf true =
      ((if BNDivCeil (amount * POINT) (POINT - tf.transferFeeBasisPoints) - amount > tf.maximumFee
          then amount + tf.maximumFee
          else BNDivCeil (amount * POINT) (POINT - tf.transferFeeBasisPoints)),
        min (BNDivCeil
          ((if BNDivCeil (amount * POINT) (POINT - tf.transferFeeBasisPoints) - amount > tf.maximumFee
              then amount + tf.maximumFee
              else BNDivCeil (amount * POINT) (POINT - tf.transferFeeBasisPoints))
            * tf.transferFeeBasisPoints) POINT) tf.maximumFee) := by
  simp only [transferFeeCore, if_neg hbp, if_true, ite_gt_eq_min]

/-- An older fee tier for concrete instances: 0.5% capped at 300. -/
def sampleOlderTier : TransferFee :=
  { epoch := 2, maximumFee := 300, transferFeeBasisPoints := 50 }

/-- A newer fee tier for concrete instances: 1% capped at 5000, active from
epoch 5 on. -/
def sampleNewerTier : TransferFee :=
  { epoch := 5, maximumFee := 5000, transferFeeBasisPoints := 100 }

/-- A concrete fee config holding the two sample tiers. -/
def sampleConfig : TransferFeeConfig :=
  { transferFeeConfigAuthority := none
    withdrawWithheldAuthority := none
    withheldAmount := 0
    olderTransferFee := sampleOlderTier
    newerTransferFee := sampleNewerTier }

/-- An epoch past the newer tier's activation epoch. -/
def sampleEpochInfo : EpochInfo :=
  { epoch := 9, slotsInEpoch := 432000, absoluteSlot := 3888000 }

/-- An epoch before the newer tier's activation epoch (the newer tier is
pending). -/
def samplePendingEpochInfo : EpochInfo :=
  { epoch := 4, slotsInEpoch := 100, absoluteSlot := 350 }

/-- A 100% fee tier (basis points = 10000) capped at 7. -/
def sampleFullFeeTier : TransferFee :=
  { epoch := 0, maximumFee := 7, transferFeeBasisPoints := 10000 }

/-- A concrete fee config whose active tier charges 100%. -/
def sampleFullFeeConfig : TransferFeeConfig :=
  { transferFeeConfigAuthority := none
    withdrawWithheldAuthority := none
    withheldAmount := 0
    olderTransferFee := sampleFullFeeTier
    newerTransferFee := sampleFullFeeTier }

/-- C6: for every non-negative integer `a` and positive integer `b`,
`BNDivCeil a b` is exact integer ceiling division: the floor quotient plus
one when the remainder is nonzero, the floor quotient otherwise
(`ceilDivSpec`), with no floating point involved. -/
theorem BNDivCeil_correct (a b : Int) (_ha : 0 ≤ a) (hb : 0 < b) :
    BNDivCeil a b = ceilDivSpec a b :=
  BNDivCeil_eq_ceilDivSpec a b hb

theorem BNDivCeil_correct_witness :
    (0 : Int) ≤ 10 ∧ (0 : Int) < 3 ∧ BNDivCeil 10 3 = ceilDivSpec 10 3 ∧
      BNDivCeil 10 3 = 4 ∧ BNDivCeil 9 3 = 3 ∧ BNDivCeil 0 5 = 0 :=
  ⟨by decide, by decide, BNDivCeil_correct 10 3 (by decide) (by decide),
    by decide, by decide, by decide⟩

/-- C7: with `feeConfig` absent, `getTransferAmountFee` returns the input
amount unchanged, no fee, and no expiration time, for every amount, epoch
info, and `addFee` flag. -/
theorem getTransferAmountFee_noConfig (amount : Int) (ep : EpochInfo) (addFee : Bool) :
    getTransferAmountFee amount none ep addFee =
      { amount := amount, fee := none, expirationTime := none } :=
  rfl

/-- C8: `minExpirationTime` returns the other argument when one is absent,
absent when both are absent, and the smaller value when both are present;
in particular on the inputs `(undefined, undefined)`, `(5, undefined)` and
`(5, 3)`. -/
theorem minExpirationTime_correct (a b : ℚ) :
    minExpirationTime none none = none ∧
    minExpirationTime (some a) none = some a ∧
    minExpirationTime none (some b) = some b ∧
    minExpirationTime (some a) (some b) = some (min a b) ∧
    minExpirationTime (some 5) none = some 5 ∧
    minExpirationTime (some 5) (some 3) = some 3 :=
  ⟨rfl, rfl, rfl, rfl, rfl, by decide⟩

/-- C10: `getTransferFeeConfig` returns `null` for every `Mint`, so every
entry produced by the mint-fetching path of `fetchMultipleMintInfos` has an
absent `feeConfig`, which is exactly the fee engine's no-fee-extension
mode. -/
theorem getTransferFeeConfig_always_none (m : Mint) (mintInfos : List (String × Buffer)) :
    getTransferFeeConfig m = none ∧
    ((fetchMultipleMintInfos mintInfos).all fun e => e.2.feeConfig.isNone) = true := by
  refine ⟨rfl, ?_⟩
  simp only [fetchMultipleMintInfos, getTransferFeeConfig, List.all_eq_true, List.mem_map]
  rintro x ⟨i, _, rfl⟩
  rfl

/-- C1: in fee-only mode (`addFee = false`) with a present config, the input
amount is returned unchanged and the fee is
`min(ceilDiv(amount * basisPoints, 10000), maximumFee)` for the tier
selected by the epoch; hence the fee never exceeds `maximumFee`, and it
equals `ceilDiv(amount * basisPoints, 10000)` whenever that value is at
most `maximumFee`. -/
theorem getTransferAmountFee_feeOnly_correct (amount : Int) (fc : TransferFeeConfig)
    (ep : EpochInfo) (_hamt : 0 ≤ amount) :
    (getTransferAmountFee amount (some fc) ep false).amount = amount ∧
    (getTransferAmountFee amount (some fc) ep false).fee =
      some (min (ceilDivSpec (amount * (activeTier fc ep).transferFeeBasisPoints) 10000)
        (activeTier fc ep).maximumFee) ∧
    min (ceilDivSpec (amount * (activeTier fc ep).transferFeeBasisPoints) 10000)
        (activeTier fc ep).maximumFee ≤ (activeTier fc ep).maximumFee ∧
    (ceilDivSpec (amount * (activeTier fc ep).transferFeeBasisPoints) 10000
        ≤ (activeTier fc ep).maximumFee →
      (getTransferAmountFee amount (some fc) ep false).fee =
        some (ceilDivSpec (amount * (activeTier fc ep).transferFeeBasisPoints) 10000)) := by
  have h10 : (0 : Int) < POINT := by decide
  refine ⟨?_, ?_, min_le_right _ _, ?_⟩
  · simp only [getTransferAmountFee_eq_core, transferFeeCore_false]
  · simp only [getTransferAmountFee_eq_core, transferFeeCore_false]
    rw [BNDivCeil_eq_ceilDivSpec _ _ h10, POINT_eq]
  · intro hle
    simp only [getTransferAmountFee_eq_core, transferFeeCore_false]
    rw [BNDivCeil_eq_ceilDivSpec _ _ h10, POINT_eq, min_eq_left hle]

theorem getTransferAmountFee_feeOnly_correct_witness :
    (0 : Int) ≤ 1000000 ∧
    ((getTransferAmountFee 1000000 (some sampleConfig) sampleEpochInfo false).amount = 1000000 ∧
    (getTransferAmountFee 1000000 (some sampleConfig) sampleEpochInfo false).fee =
      some (min (ceilDivSpec (1000000 * (activeTier sampleConfig sampleEpochInfo).transferFeeBasisPoints) 10000)
        (activeTier sampleConfig sampleEpochInfo).maximumFee) ∧
    min (ceilDivSpec (1000000 * (activeTier sampleConfig sampleEpochInfo).transferFeeBasisPoints) 10000)
        (activeTier sampleConfig sampleEpochInfo).maximumFee
        ≤ (activeTier sampleConfig sampleEpochInfo).maximumFee ∧
    (ceilDivSpec (1000000 * (activeTier sampleConfig sampleEpochInfo).transferFeeBasisPoints) 10000
        ≤ (activeTier sampleConfig sampleEpochInfo).maximumFee →
      (getTransferAmountFee 1000000 (some sampleConfig) sampleEpochInfo false).fee =
        some (ceilDivSpec (1000000 * (activeTier sampleConfig sampleEpochInfo).transferFeeBasisPoints) 10000))) :=
  ⟨by decide, getTransferAmountFee_feeOnly_correct 1000000 sampleConfig sampleEpochInfo (by decide)⟩

/-- C4: in gross-up mode (`addFee = true`) with a 100% fee tier
(`basisPoints = 10000`), the gross amount is `amount + maximumFee` and the
fee is exactly `maximumFee`. -/
theorem getTransferAmountFee_fullFeeTier (amount : Int) (fc : TransferFeeConfig)
    (ep : EpochInfo) (_hamt : 0 ≤ amount)
    (hbp : (activeTier fc ep).transferFeeBasisPoints = 10000) :
    (getTransferAmountFee amount (some fc) ep true).amount =
      amount + (activeTier fc ep).maximumFee ∧
    (getTransferAmountFee amount (some fc) ep true).fee =
      some ((activeTier fc ep).maximumFee) := by
  have hbp' : (activeTier fc ep).transferFeeBasisPoints = POINT := by
    rw [POINT_eq]; exact hbp
  constructor <;> simp only [getTransferAmountFee_eq_core, transferFeeCore_true_full _ _ hbp']

theorem getTransferAmountFee_fullFeeTier_witness :
    ((0 : Int) ≤ 123 ∧ (activeTier sampleFullFeeConfig sampleEpochInfo).transferFeeBasisPoints = 10000) ∧
    ((getTransferAmountFee 123 (some sampleFullFeeConfig) sampleEpochInfo true).amount =
      123 + (activeTier sampleFullFeeConfig sampleEpochInfo).maximumFee ∧
    (getTransferAmountFee 123 (some sampleFullFeeConfig) sampleEpochInfo true).fee =
      some ((activeTier sampleFullFeeConfig sampleEpochInfo).maximumFee)) :=
  ⟨⟨by decide, by decide⟩,
    getTransferAmountFee_fullFeeTier 123 sampleFullFeeConfig sampleEpochInfo (by decide) (by decide)⟩

/-- C5: with a present config, if the current epoch precedes the newer
tier's activation epoch the older tier's basis points and maximum fee are
used and the expiration time is
`((newerEpoch * slotsInEpoch) - absoluteSlot) * 400 / 1000`; otherwise the
newer tier is used and the expiration time is absent.  Exactly one of the
two tiers is selected and the function is total (no error condition). -/
theorem getTransferAmountFee_tierSelection (amount : Int) (fc : TransferFeeConfig)
    (ep : EpochInfo) (addFee : Bool) :
    (ep.epoch < fc.newerTransferFee.epoch →
      getTransferAmountFee amount (some fc) ep addFee =
        { amount := (transferFeeCore amount fc.olderTransferFee addFee).1
          fee := some (transferFeeCore amount fc.olderTransferFee addFee).2
          expirationTime := some ((((fc.newerTransferFee.epoch * ep.slotsInEpoch
              - ep.absoluteSlot) * 400 : Int) : ℚ) / 1000) }) ∧
    (¬ ep.epoch < fc.newerTransferFee.epoch →
      getTransferAmountFee amount (some fc) ep addFee =
        { amount := (transferFeeCore amount fc.newerTransferFee addFee).1
          fee := some (transferFeeCore amount fc.newerTransferFee addFee).2
          expirationTime := none }) := by
  constructor <;> intro h <;> rw [getTransferAmountFee_eq_core] <;> simp [activeTier, h]

theorem getTransferAmountFee_tierSelection_witness :
    samplePendingEpochInfo.epoch < sampleConfig.newerTransferFee.epoch ∧
    getTransferAmountFee 100 (some sampleConfig) samplePendingEpochInfo true =
      { amount := (transferFeeCore 100 sampleConfig.olderTransferFee true).1
        fee := some (transferFeeCore 100 sampleConfig.olderTransferFee true).2
        expirationTime := some ((((sampleConfig.newerTransferFee.epoch * samplePendingEpochInfo.slotsInEpoch
            - samplePendingEpochInfo.absoluteSlot) * 400 : Int) : ℚ) / 1000) } :=
  ⟨by decide,
    (getTransferAmountFee_tierSelection 100 sampleConfig samplePendingEpochInfo true).1 (by decide)⟩

/-- C2: in gross-up mode (`addFee = true`) with an active tier whose basis
points differ from 10000, the candidate gross amount is
`T0 = ceilDiv(amount * 10000, 10000 - basisPoints)`; the returned gross
amount is `amount + maximumFee` when `T0 - amount > maximumFee` and `T0`
otherwise; and the fee is `min(ceilDiv(T * basisPoints, 10000), maximumFee)`
computed on the chosen gross amount `T`.  Basis points are in `[0, 10000]`
per the data model. -/
theorem getTransferAmountFee_addFee_correct (amount : Int) (fc : TransferFeeConfig)
    (ep : EpochInfo) (_hamt : 0 ≤ amount)
    (hbp_le : (activeTier fc ep).transferFeeBasisPoints ≤ 10000)
    (hbp_ne : (activeTier fc ep).transferFeeBasisPoints ≠ 10000) :
    (getTransferAmountFee amount (some fc) ep true).amount =
      (if ceilDivSpec (amount * 10000) (10000 - (activeTier fc ep).transferFeeBasisPoints)
            - amount > (activeTier fc ep).maximumFee
        then amount + (activeTier fc ep).maximumFee
        else ceilDivSpec (amount * 10000) (10000 - (activeTier fc ep).transferFeeBasisPoints)) ∧
    (getTransferAmountFee amount (some fc) ep true).fee =
      some (min (ceilDivSpec ((getTransferAmountFee amount (some fc) ep true).amount
          * (activeTier fc ep).transferFeeBasisPoints) 10000) (activeTier fc ep).maximumFee) := by
  have hd : (0 : Int) < 10000 - (activeTier fc ep).transferFeeBasisPoints := by omega
  have hbp' : (activeTier fc ep).transferFeeBasisPoints ≠ POINT := by
    rw [POINT_eq]; exact hbp_ne
  simp only [getTransferAmountFee_eq_core, transferFeeCore_true_partial _ _ hbp', POINT_eq]
  rw [BNDivCeil_eq_ceilDivSpec (amount * 10000) _ hd,
    BNDivCeil_eq_ceilDivSpec _ 10000 (by norm_num)]
  exact ⟨rfl, rfl⟩

theorem getTransferAmountFee_addFee_correct_witness :
    ((0 : Int) ≤ 1000000 ∧
      (activeTier sampleConfig sampleEpochInfo).transferFeeBasisPoints ≤ 10000 ∧
      (activeTier sampleConfig sampleEpochInfo).transferFeeBasisPoints ≠ 10000) ∧
    ((getTransferAmountFee 1000000 (some sampleConfig) sampleEpochInfo true).amount =
      (if ceilDivSpec (1000000 * 10000)
            (10000 - (activeTier sampleConfig sampleEpochInfo).transferFeeBasisPoints)
            - 1000000 > (activeTier sampleConfig sampleEpochInfo).maximumFee
        then 1000000 + (activeTier sampleConfig sampleEpochInfo).maximumFee
        else ceilDivSpec (1000000 * 10000)
            (10000 - (activeTier sampleConfig sampleEpochInfo).transferFeeBasisPoints)) ∧
    (getTransferAmountFee 1000000 (some sampleConfig) sampleEpochInfo true).fee =
      some (min (ceilDivSpec ((getTransferAmountFee 1000000 (some sampleConfig) sampleEpochInfo true).amount
          * (activeTier sampleConfig sampleEpochInfo).transferFeeBasisPoints) 10000)
        (activeTier sampleConfig sampleEpochInfo).maximumFee)) :=
  ⟨⟨by decide, by decide, by decide⟩,
    getTransferAmountFee_addFee_correct 1000000 sampleConfig sampleEpochInfo
      (by decide) (by decide) (by decide)⟩

/-- C3: round-trip consistency: when gross-up mode returns
`(TAmount, fee)`, fee-only mode applied to `TAmount` under the same config
and epoch returns the same fee. -/
theorem getTransferAmountFee_roundTrip (amount : Int) (fc : TransferFeeConfig)
    (ep : EpochInfo) (hamt : 0 ≤ amount)
    (_hbp0 : 0 ≤ (activeTier fc ep).transferFeeBasisPoints)
    (_hbp1 : (activeTier fc ep).transferFeeBasisPoints ≤ 10000) :
    (getTransferAmountFee ((getTransferAmountFee amount (some fc) ep true).amount)
        (some fc) ep false).fee =
      (getTransferAmountFee amount (some fc) ep true).fee := by
  rcases eq_or_ne (activeTier fc ep).transferFeeBasisPoints POINT with hbp | hbp
  · simp only [getTransferAmountFee_eq_core, transferFeeCore_true_full _ _ hbp,
      transferFeeCore_false]
    rw [hbp, BNDivCeil_mul_cancel _ _ (by decide)]
    congr 1
    omega
  · simp only [getTransferAmountFee_eq_core, transferFeeCore_true_partial _ _ hbp,
      transferFeeCore_false]

theorem getTransferAmountFee_roundTrip_witness :
    ((0 : Int) ≤ 1000000 ∧
      0 ≤ (activeTier sampleConfig sampleEpochInfo).transferFeeBasisPoints ∧
      (activeTier sampleConfig sampleEpochInfo).transferFeeBasisPoints ≤ 10000) ∧
    (getTransferAmountFee ((getTransferAmountFee 1000000 (some sampleConfig) sampleEpochInfo true).amount)
        (some sampleConfig) sampleEpochInfo false).fee =
      (getTransferAmountFee 1000000 (some sampleConfig) sampleEpochInfo true).fee :=
  ⟨⟨by decide, by decide, by decide⟩,
    getTransferAmountFee_roundTrip 1000000 sampleConfig sampleEpochInfo
      (by decide) (by decide) (by decide)⟩

/-- C9: gross-up never under-delivers: in gross-up mode with basis points
in `[0, 10000]` and a non-negative maximum fee, the returned pair
`(TAmount, fee)` satisfies `TAmount - fee ≥ amount`, so the recipient nets
at least the requested target amount. -/
theorem getTransferAmountFee_grossUp_covers (amount : Int) (fc : TransferFeeConfig)
    (ep : EpochInfo) (_hamt : 0 ≤ amount)
    (hbp0 : 0 ≤ (activeTier fc ep).transferFeeBasisPoints)
    (hbp1 : (activeTier fc ep).transferFeeBasisPoints ≤ 10000)
    (_hmax : 0 ≤ (activeTier fc ep).maximumFee) :
    ((getTransferAmountFee amount (some fc) ep true).fee).isSome = true ∧
    amount ≤ (getTransferAmountFee amount (some fc) ep true).amount
      - ((getTransferAmountFee amount (some fc) ep true).fee).getD 0 := by
  rcases eq_or_ne (activeTier fc ep).transferFeeBasisPoints POINT with hbp | hbp
  · simp only [getTransferAmountFee_eq_core, transferFeeCore_true_full _ _ hbp,
      Option.isSome_some, Option.getD_some]
    exact ⟨trivial, by omega⟩
  · simp only [getTransferAmountFee_eq_core, transferFeeCore_true_partial _ _ hbp,
      Option.isSome_some, Option.getD_some, POINT_eq]
    refine ⟨trivial, ?_⟩
    set bp := (activeTier fc ep).transferFeeBasisPoints with hbpdef
    set M := (activeTier fc ep).maximumFee with hMdef
    set T0 := BNDivCeil (amount * 10000) (10000 - bp) with hT0
    have hbp10 : bp < 10000 := by
      rcases lt_or_eq_of_le hbp1 with h | h
      · exact h
      · exact absurd (by rw [POINT_eq]; exact h) hbp
    by_cases hclamp : T0 - amount > M
    · rw [if_pos hclamp]
      have hle : min (BNDivCeil ((amount + M) * bp) 10000) M ≤ M := min_le_right _ _
      omega
    · rw [if_neg hclamp]
      have hkey : BNDivCeil (T0 * bp) 10000 ≤ T0 - amount := by
        rw [BNDivCeil_le_iff _ _ _ (by norm_num)]
        have hcov : amount * 10000 ≤ (10000 - bp) * T0 := by
          rw [hT0]
          exact le_mul_BNDivCeil _ _ (by omega)
        nlinarith
      have hle : min (BNDivCeil (T0 * bp) 10000) M ≤ T0 - amount :=
        le_trans (min_le_left _ _) hkey
      omega

theorem getTransferAmountFee_grossUp_covers_witness :
    ((0 : Int) ≤ 1000000 ∧
      0 ≤ (activeTier sampleConfig sampleEpochInfo).transferFeeBasisPoints ∧
      (activeTier sampleConfig sampleEpochInfo).transferFeeBasisPoints ≤ 10000 ∧
      0 ≤ (activeTier sampleConfig sampleEpochInfo).maximumFee) ∧
    (((getTransferAmountFee 1000000 (some sampleConfig) sampleEpochInfo true).fee).isSome = true ∧
    (1000000 : Int) ≤ (getTransferAmountFee 1000000 (some sampleConfig) sampleEpochInfo true).amount
      - ((getTransferAmountFee 1000000 (some sampleConfig) sampleEpochInfo true).fee).getD 0) :=
  ⟨⟨by decide, by decide, by decide, by decide⟩,
    getTransferAmountFee_grossUp_covers 1000000 sampleConfig sampleEpochInfo
      (by decide) (by decide) (by decide) (by decide)⟩
